import Mathlib

/-!
Shallow embedding of `src/browser/native_window_gtk.cc` (class
`atom::NativeWindowGtk`), an adapter between the cross-platform
`NativeWindow` abstraction and the GTK toolkit.

Modelling choices:
* Machine integers (`int`, `gint`) are modelled as `Int`; the adapter only
  forwards them, never computes with them, so no overflow arises.
* Each C++ method becomes a Lean function from the adapter state to a
  `MethodResult`: the updated state, the list of toolkit calls issued (in
  order, with their arguments), and the list of calls made back into the
  `NativeWindow` abstraction (base class).  GTK signal handlers additionally
  return a `gboolean` (modelled as `Int`, `TRUE = 1`, `FALSE = 0`).
* Getters become functions returning the value together with the list of
  toolkit calls they issue while computing it (empty when the getter reads
  only cached state).
* The base-class fields that this file reads or writes
  (`fullscreen_`, `is_always_on_top_`, `minimum_size_`, `maximum_size_`,
  `has_frame_`, `icon_`) are fields of `WindowState`; `icon_` only ever
  appears through `icon_.IsEmpty()`, so it is modelled by that Boolean.
-/

namespace AtomGtk

/-- `gfx::Size`: a width/height pair. -/
structure Size where
  width : Int
  height : Int
deriving DecidableEq, Repr

/-- `gfx::Point`: an x/y pair. -/
structure Point where
  x : Int
  y : Int
deriving DecidableEq, Repr

/-- `gfx::Rect`: origin and size. -/
structure Rect where
  x : Int
  y : Int
  width : Int
  height : Int
deriving DecidableEq, Repr

/-- `GdkGeometry`, the fields this file uses.  The source zero-initialises
the struct (`GdkGeometry geometry = { 0 };`) and then sets only the
min or max fields. -/
structure GdkGeometry where
  min_width : Int
  min_height : Int
  max_width : Int
  max_height : Int
deriving DecidableEq, Repr

/-- GDK geometry-hint flags used by the source (values from the GDK
headers; only their distinctness matters here). -/
def GDK_HINT_POS : Nat := 1

def GDK_HINT_MIN_SIZE : Nat := 2

def GDK_HINT_MAX_SIZE : Nat := 4

/-- `GTK_WIN_POS_CENTER` from the GTK headers. -/
def GTK_WIN_POS_CENTER : Nat := 1

/-- `gboolean` TRUE. -/
def TRUE : Int := 1

/-- `gboolean` FALSE. -/
def FALSE : Int := 0

/-- One call into the GTK/GDK toolkit, with the arguments the adapter
passes (arguments that are always the fixed `window_` widget are left
implicit). -/
inductive ToolkitCall where
  | gtk_window_new_toplevel
  | gtk_container_add
  | gtk_window_set_default_size (width height : Int)
  | gtk_window_set_decorated (decorated : Bool)
  | gtk_window_set_icon
  | g_signal_connect (signal : String)
  | gtk_widget_destroy
  | gtk_window_move (x y : Int)
  | gtk_window_resize (width height : Int)
  | gtk_window_present
  | gdk_window_lower
  | gtk_window_is_active
  | gtk_widget_show_all
  | gtk_widget_hide
  | gtk_widget_get_visible
  | gtk_window_maximize
  | gtk_window_unmaximize
  | gtk_window_iconify
  | gtk_window_fullscreen
  | gtk_window_unfullscreen
  | gdk_window_get_frame_extents
  | gtk_window_set_geometry_hints (geometry : GdkGeometry) (hints : Nat)
  | gtk_window_get_size
  | gtk_widget_set_size_request (width height : Int)
  | gtk_window_set_resizable (resizable : Bool)
  | gtk_window_get_resizable
  | gtk_window_set_keep_above (above : Bool)
  | gtk_window_set_position (position : Nat)
  | gtk_window_set_title (title : String)
  | gtk_window_get_title
  | gtk_window_set_urgency_hint (flash : Bool)
  | set_webkit_color_style
deriving DecidableEq, Repr

/-- One call back into the `NativeWindow` abstraction (base class). -/
inductive AbstractionCall where
  | CloseWebContents
  | NotifyWindowBlur
deriving DecidableEq, Repr

/-- The adapter's state: its own fields (`window_`, `fullscreen_`,
`is_always_on_top_`) plus the base-class fields this file touches. -/
structure WindowState where
  window_null : Bool
  fullscreen_ : Bool
  is_always_on_top_ : Bool
  minimum_size_ : Size
  maximum_size_ : Size
  has_frame_ : Bool
  icon_empty : Bool
deriving DecidableEq, Repr

/-- Result of running one method: new state, toolkit calls issued in
order, and calls into the abstraction. -/
structure MethodResult where
  state : WindowState
  toolkit : List ToolkitCall
  callbacks : List AbstractionCall
deriving DecidableEq, Repr

/-- Result of a GTK signal handler: a `MethodResult` plus the `gboolean`
returned to the toolkit. -/
structure HandlerResult where
  state : WindowState
  toolkit : List ToolkitCall
  callbacks : List AbstractionCall
  ret : Int
deriving DecidableEq, Repr

/-- The `options` dictionary as read by this file: the constructor looks up
only the integer keys `switches::kWidth` and `switches::kHeight`
(`options->GetInteger` leaves the output variable untouched when the key
is absent). -/
structure Options where
  width : Option Int
  height : Option Int
deriving DecidableEq, Repr

namespace NativeWindowGtk

/-- `NativeWindowGtk::NativeWindowGtk`.  The base-class constructor
initialises `minimum_size_`/`maximum_size_`/`has_frame_`/`icon_` (code not
in this file), so those initial values are parameters here.  The member
initialiser list creates the top-level window and sets
`fullscreen_ = false`, `is_always_on_top_ = false`; the body embeds the web
contents view, applies the default size from the options, the frame flag
and the icon, and connects the `delete-event` and `focus-out-event`
signals. -/
def construct (options : Options) (has_frame icon_empty : Bool)
    (minimum_size maximum_size : Size) : MethodResult :=
  let width : Int := options.width.getD 800
  let height : Int := options.height.getD 600
  { state :=
      { window_null := false
        fullscreen_ := false
        is_always_on_top_ := false
        minimum_size_ := minimum_size
        maximum_size_ := maximum_size
        has_frame_ := has_frame
        icon_empty := icon_empty }
    toolkit :=
      [ToolkitCall.gtk_window_new_toplevel,
       ToolkitCall.gtk_container_add,
       ToolkitCall.gtk_window_set_default_size width height]
      ++ (if has_frame then [] else [ToolkitCall.gtk_window_set_decorated false])
      ++ (if icon_empty then [] else [ToolkitCall.gtk_window_set_icon])
      ++ [ToolkitCall.g_signal_connect "delete-event",
          ToolkitCall.g_signal_connect "focus-out-event",
          ToolkitCall.set_webkit_color_style]
    callbacks := [] }

/-- `NativeWindowGtk::Close`: `CloseWebContents();` — no toolkit call. -/
def Close (s : WindowState) : MethodResult :=
  { state := s, toolkit := [], callbacks := [AbstractionCall.CloseWebContents] }

/-- `NativeWindowGtk::CloseImmediately`: destroys the widget and nulls
`window_`. -/
def CloseImmediately (s : WindowState) : MethodResult :=
  { state := { s with window_null := true }
    toolkit := [ToolkitCall.gtk_widget_destroy]
    callbacks := [] }

/-- `NativeWindowGtk::Move`: `gtk_window_move(window_, pos.x(), pos.y());
gtk_window_resize(window_, pos.width(), pos.height());`. -/
def Move (pos : Rect) (s : WindowState) : MethodResult :=
  { state := s
    toolkit := [ToolkitCall.gtk_window_move pos.x pos.y,
                ToolkitCall.gtk_window_resize pos.width pos.height]
    callbacks := [] }

/-- `NativeWindowGtk::Focus`. -/
def Focus (focus : Bool) (s : WindowState) : MethodResult :=
  { state := s
    toolkit := if focus then [ToolkitCall.gtk_window_present]
               else [ToolkitCall.gdk_window_lower]
    callbacks := [] }

/-- `NativeWindowGtk::IsFocused`: queries the toolkit; the toolkit's
answer is the oracle argument. -/
def IsFocused (toolkit_active : Bool) (_s : WindowState) :
    Bool × List ToolkitCall :=
  (toolkit_active, [ToolkitCall.gtk_window_is_active])

/-- `NativeWindowGtk::Show`. -/
def Show (s : WindowState) : MethodResult :=
  { state := s, toolkit := [ToolkitCall.gtk_widget_show_all], callbacks := [] }

/-- `NativeWindowGtk::Hide`. -/
def Hide (s : WindowState) : MethodResult :=
  { state := s, toolkit := [ToolkitCall.gtk_widget_hide], callbacks := [] }

/-- `NativeWindowGtk::IsVisible`: queries the toolkit. -/
def IsVisible (toolkit_visible : Bool) (_s : WindowState) :
    Bool × List ToolkitCall :=
  (toolkit_visible, [ToolkitCall.gtk_widget_get_visible])

/-- `NativeWindowGtk::Maximize`. -/
def Maximize (s : WindowState) : MethodResult :=
  { state := s, toolkit := [ToolkitCall.gtk_window_maximize], callbacks := [] }

/-- `NativeWindowGtk::Unmaximize`. -/
def Unmaximize (s : WindowState) : MethodResult :=
  { state := s, toolkit := [ToolkitCall.gtk_window_unmaximize], callbacks := [] }

/-- `NativeWindowGtk::Minimize`. -/
def Minimize (s : WindowState) : MethodResult :=
  { state := s, toolkit := [ToolkitCall.gtk_window_iconify], callbacks := [] }

/-- `NativeWindowGtk::Restore`. -/
def Restore (s : WindowState) : MethodResult :=
  { state := s, toolkit := [ToolkitCall.gtk_window_present], callbacks := [] }

/-- `NativeWindowGtk::SetFullscreen`: records the flag, then calls
`gtk_window_fullscreen` or `gtk_window_unfullscreen`. -/
def SetFullscreen (fullscreen : Bool) (s : WindowState) : MethodResult :=
  { state := { s with fullscreen_ := fullscreen }
    toolkit := if fullscreen then [ToolkitCall.gtk_window_fullscreen]
               else [ToolkitCall.gtk_window_unfullscreen]
    callbacks := [] }

/-- `NativeWindowGtk::IsFullscreen`: `return fullscreen_;` — reads only
the cached flag. -/
def IsFullscreen (s : WindowState) : Bool × List ToolkitCall :=
  (s.fullscreen_, [])

/-- `NativeWindowGtk::SetSize`. -/
def SetSize (size : Size) (s : WindowState) : MethodResult :=
  { state := s
    toolkit := [ToolkitCall.gtk_window_resize size.width size.height]
    callbacks := [] }

/-- `NativeWindowGtk::GetSize`: reads the frame extents from the
toolkit; the extents are the oracle argument. -/
def GetSize (frame_extents : Rect) (_s : WindowState) :
    Size × List ToolkitCall :=
  (⟨frame_extents.width, frame_extents.height⟩,
   [ToolkitCall.gdk_window_get_frame_extents])

/-- `NativeWindowGtk::SetMinimumSize`: stores the size in the base-class
field and forwards a min-size geometry hint. -/
def SetMinimumSize (size : Size) (s : WindowState) : MethodResult :=
  { state := { s with minimum_size_ := size }
    toolkit :=
      [ToolkitCall.gtk_window_set_geometry_hints
        { min_width := size.width, min_height := size.height
          max_width := 0, max_height := 0 }
        (GDK_HINT_POS ||| GDK_HINT_MIN_SIZE)]
    callbacks := [] }

/-- `NativeWindowGtk::GetMinimumSize`: `return minimum_size_;`. -/
def GetMinimumSize (s : WindowState) : Size × List ToolkitCall :=
  (s.minimum_size_, [])

/-- `NativeWindowGtk::SetMaximumSize`: stores the size in the base-class
field and forwards a max-size geometry hint. -/
def SetMaximumSize (size : Size) (s : WindowState) : MethodResult :=
  { state := { s with maximum_size_ := size }
    toolkit :=
      [ToolkitCall.gtk_window_set_geometry_hints
        { min_width := 0, min_height := 0
          max_width := size.width, max_height := size.height }
        (GDK_HINT_POS ||| GDK_HINT_MAX_SIZE)]
    callbacks := [] }

/-- `NativeWindowGtk::GetMaximumSize`: `return maximum_size_;`. -/
def GetMaximumSize (s : WindowState) : Size × List ToolkitCall :=
  (s.maximum_size_, [])

/-- `NativeWindowGtk::SetResizable`: when the window is currently not
resizable it first pins the current size; the toolkit's current
resizability and size are oracle arguments. -/
def SetResizable (resizable : Bool) (toolkit_resizable : Bool)
    (cur_width cur_height : Int) (s : WindowState) : MethodResult :=
  { state := s
    toolkit :=
      [ToolkitCall.gtk_window_get_resizable]
      ++ (if !toolkit_resizable then
            [ToolkitCall.gtk_window_get_size,
             ToolkitCall.gtk_widget_set_size_request cur_width cur_height]
          else [])
      ++ [ToolkitCall.gtk_window_set_resizable resizable]
    callbacks := [] }

/-- `NativeWindowGtk::IsResizable`: queries the toolkit. -/
def IsResizable (toolkit_resizable : Bool) (_s : WindowState) :
    Bool × List ToolkitCall :=
  (toolkit_resizable, [ToolkitCall.gtk_window_get_resizable])

/-- `NativeWindowGtk::SetAlwaysOnTop`: records the flag and forwards it
(`top ? TRUE : FALSE`) to `gtk_window_set_keep_above`. -/
def SetAlwaysOnTop (top : Bool) (s : WindowState) : MethodResult :=
  { state := { s with is_always_on_top_ := top }
    toolkit := [ToolkitCall.gtk_window_set_keep_above top]
    callbacks := [] }

/-- `NativeWindowGtk::IsAlwaysOnTop`: `return is_always_on_top_;` — reads
only the cached flag. -/
def IsAlwaysOnTop (s : WindowState) : Bool × List ToolkitCall :=
  (s.is_always_on_top_, [])

/-- `NativeWindowGtk::Center`. -/
def Center (s : WindowState) : MethodResult :=
  { state := s
    toolkit := [ToolkitCall.gtk_window_set_position GTK_WIN_POS_CENTER]
    callbacks := [] }

/-- `NativeWindowGtk::SetPosition`: `gtk_window_move(window_,
position.x(), position.y());`. -/
def SetPosition (position : Point) (s : WindowState) : MethodResult :=
  { state := s
    toolkit := [ToolkitCall.gtk_window_move position.x position.y]
    callbacks := [] }

/-- `NativeWindowGtk::GetPosition`: reads the frame extents from the
toolkit. -/
def GetPosition (frame_extents : Rect) (_s : WindowState) :
    Point × List ToolkitCall :=
  (⟨frame_extents.x, frame_extents.y⟩,
   [ToolkitCall.gdk_window_get_frame_extents])

/-- `NativeWindowGtk::SetTitle`: forwards the string to
`gtk_window_set_title`. -/
def SetTitle (title : String) (s : WindowState) : MethodResult :=
  { state := s
    toolkit := [ToolkitCall.gtk_window_set_title title]
    callbacks := [] }

/-- `NativeWindowGtk::GetTitle`: queries the toolkit. -/
def GetTitle (toolkit_title : String) (_s : WindowState) :
    String × List ToolkitCall :=
  (toolkit_title, [ToolkitCall.gtk_window_get_title])

/-- `NativeWindowGtk::FlashFrame`. -/
def FlashFrame (flash : Bool) (s : WindowState) : MethodResult :=
  { state := s
    toolkit := [ToolkitCall.gtk_window_set_urgency_hint flash]
    callbacks := [] }

/-- `NativeWindowGtk::SetKiosk`: `SetFullscreen(kiosk);`. -/
def SetKiosk (kiosk : Bool) (s : WindowState) : MethodResult :=
  SetFullscreen kiosk s

/-- `NativeWindowGtk::IsKiosk`: `return IsFullscreen();`. -/
def IsKiosk (s : WindowState) : Bool × List ToolkitCall :=
  IsFullscreen s

/-- `NativeWindowGtk::HasModalDialog`: `return false;` (marked
`FIXME(zcbenz): Implement me.`). -/
def HasModalDialog (_s : WindowState) : Bool × List ToolkitCall :=
  (false, [])

/-- `NativeWindowGtk::UpdateDraggableRegions`: empty body. -/
def UpdateDraggableRegions (s : WindowState) : MethodResult :=
  { state := s, toolkit := [], callbacks := [] }

/-- `NativeWindowGtk::OnWindowDeleteEvent`: calls `Close()` and returns
`TRUE` to the toolkit. -/
def OnWindowDeleteEvent (s : WindowState) : HandlerResult :=
  let r := Close s
  { state := r.state, toolkit := r.toolkit, callbacks := r.callbacks
    ret := TRUE }

/-- `NativeWindowGtk::OnFocusOut`: calls `NotifyWindowBlur()` and returns
`FALSE` to the toolkit. -/
def OnFocusOut (s : WindowState) : HandlerResult :=
  { state := s, toolkit := []
    callbacks := [AbstractionCall.NotifyWindowBlur]
    ret := FALSE }

end NativeWindowGtk

/-- One operation of the adapter, covering every method of the file that
can run after construction (oracle answers from the toolkit are carried
in the constructor where a method reads the toolkit). -/
inductive Op where
  | close
  | closeImmediately
  | move (pos : Rect)
  | focus (b : Bool)
  | show
  | hide
  | maximize
  | unmaximize
  | minimize
  | restore
  | setFullscreen (b : Bool)
  | setSize (z : Size)
  | setMinimumSize (z : Size)
  | setMaximumSize (z : Size)
  | setResizable (b : Bool) (toolkit_resizable : Bool) (w h : Int)
  | setAlwaysOnTop (b : Bool)
  | center
  | setPosition (p : Point)
  | setTitle (t : String)
  | flashFrame (b : Bool)
  | setKiosk (b : Bool)
  | updateDraggableRegions
  | onWindowDeleteEvent
  | onFocusOut
deriving DecidableEq, Repr

/-- Dispatch an operation to the corresponding method of the source. -/
def applyOp (op : Op) (s : WindowState) : MethodResult :=
  match op with
  | Op.close => NativeWindowGtk.Close s
  | Op.closeImmediately => NativeWindowGtk.CloseImmediately s
  | Op.move pos => NativeWindowGtk.Move pos s
  | Op.focus b => NativeWindowGtk.Focus b s
  | Op.show => NativeWindowGtk.Show s
  | Op.hide => NativeWindowGtk.Hide s
  | Op.maximize => NativeWindowGtk.Maximize s
  | Op.unmaximize => NativeWindowGtk.Unmaximize s
  | Op.minimize => NativeWindowGtk.Minimize s
  | Op.restore => NativeWindowGtk.Restore s
  | Op.setFullscreen b => NativeWindowGtk.SetFullscreen b s
  | Op.setSize z => NativeWindowGtk.SetSize z s
  | Op.setMinimumSize z => NativeWindowGtk.SetMinimumSize z s
  | Op.setMaximumSize z => NativeWindowGtk.SetMaximumSize z s
  | Op.setResizable b tr w h => NativeWindowGtk.SetResizable b tr w h s
  | Op.setAlwaysOnTop b => NativeWindowGtk.SetAlwaysOnTop b s
  | Op.center => NativeWindowGtk.Center s
  | Op.setPosition p => NativeWindowGtk.SetPosition p s
  | Op.setTitle t => NativeWindowGtk.SetTitle t s
  | Op.flashFrame b => NativeWindowGtk.FlashFrame b s
  | Op.setKiosk b => NativeWindowGtk.SetKiosk b s
  | Op.updateDraggableRegions => NativeWindowGtk.UpdateDraggableRegions s
  | Op.onWindowDeleteEvent =>
      let r := NativeWindowGtk.OnWindowDeleteEvent s
      { state := r.state, toolkit := r.toolkit, callbacks := r.callbacks }
  | Op.onFocusOut =>
      let r := NativeWindowGtk.OnFocusOut s
      { state := r.state, toolkit := r.toolkit, callbacks := r.callbacks }

/-- Run a sequence of operations, threading the state. -/
def runOps (ops : List Op) (s : WindowState) : WindowState :=
  ops.foldl (fun st op => (applyOp op st).state) s

/-- The signal names registered by `g_signal_connect` within a toolkit
trace, in order. -/
def connectedSignals (calls : List ToolkitCall) : List String :=
  calls.filterMap fun c =>
    match c with
    | ToolkitCall.g_signal_connect s => some s
    | _ => none

end AtomGtk

namespace AtomGtk

/-- C1: every abstraction-level setter forwards its arguments unchanged to
the toolkit: `Move(pos)` passes `pos.x, pos.y` to `gtk_window_move` and
`pos.width, pos.height` to `gtk_window_resize`; `SetSize(s)` passes
`s.width, s.height` to `gtk_window_resize`; `SetPosition(p)` passes
`p.x, p.y` to `gtk_window_move`; `SetTitle(t)` passes `t` unchanged to
`gtk_window_set_title` — and each issues exactly these calls. -/
theorem C1_setters_forward (pos : Rect) (z : Size) (p : Point) (t : String)
    (s : WindowState) :
    (NativeWindowGtk.Move pos s).toolkit
        = [ToolkitCall.gtk_window_move pos.x pos.y,
           ToolkitCall.gtk_window_resize pos.width pos.height]
    ∧ (NativeWindowGtk.SetSize z s).toolkit
        = [ToolkitCall.gtk_window_resize z.width z.height]
    ∧ (NativeWindowGtk.SetPosition p s).toolkit
        = [ToolkitCall.gtk_window_move p.x p.y]
    ∧ (NativeWindowGtk.SetTitle t s).toolkit
        = [ToolkitCall.gtk_window_set_title t] :=
  ⟨rfl, rfl, rfl, rfl⟩

/-- C2 (counterexample): the constructor does NOT register a handler for
the toolkit resize/configure event: at a concrete construction the
registered signals are exactly `delete-event` and `focus-out-event`, and
no `configure-event` handler is among them. -/
theorem C2_counterexample :
    connectedSignals
        (NativeWindowGtk.construct ⟨none, none⟩ true true ⟨0, 0⟩ ⟨0, 0⟩).toolkit
      = ["delete-event", "focus-out-event"]
    ∧ "configure-event" ∉ connectedSignals
        (NativeWindowGtk.construct ⟨none, none⟩ true true ⟨0, 0⟩ ⟨0, 0⟩).toolkit := by
  decide

/-- C2 (amended): at construction the adapter registers handlers for the
toolkit close (`delete-event`) and focus-out (`focus-out-event`) events
only — not for the resize/configure event — and each registered handler
invokes a callback of the native-window abstraction (`CloseWebContents`
for delete, `NotifyWindowBlur` for focus-out). -/
theorem C2_signal_registration (options : Options) (hf ie : Bool)
    (m0 M0 : Size) (s : WindowState) :
    connectedSignals (NativeWindowGtk.construct options hf ie m0 M0).toolkit
      = ["delete-event", "focus-out-event"]
    ∧ (NativeWindowGtk.OnWindowDeleteEvent s).callbacks
        = [AbstractionCall.CloseWebContents]
    ∧ (NativeWindowGtk.OnFocusOut s).callbacks
        = [AbstractionCall.NotifyWindowBlur] :=
  ⟨by cases hf <;> cases ie <;> rfl, rfl, rfl⟩

/-- C3: on the toolkit delete event the handler invokes `Close()`, which
closes the web contents (`CloseWebContents`) and issues no toolkit call —
in particular it never destroys the toolkit window — and the handler
returns `TRUE` to the toolkit. -/
theorem C3_delete_event (s : WindowState) :
    NativeWindowGtk.OnWindowDeleteEvent s
      = { state := s, toolkit := [],
          callbacks := [AbstractionCall.CloseWebContents], ret := TRUE }
    ∧ NativeWindowGtk.Close s
      = { state := s, toolkit := [],
          callbacks := [AbstractionCall.CloseWebContents] }
    ∧ ToolkitCall.gtk_widget_destroy ∉
        (NativeWindowGtk.OnWindowDeleteEvent s).toolkit
    ∧ (NativeWindowGtk.OnWindowDeleteEvent s).ret = TRUE := by
  refine ⟨rfl, rfl, ?_, rfl⟩
  simp [NativeWindowGtk.OnWindowDeleteEvent, NativeWindowGtk.Close]

/-- C4: on the toolkit focus-out event the handler invokes the
abstraction's blur callback (`NotifyWindowBlur`) and returns `FALSE` to
the toolkit, changing no state and issuing no toolkit call. -/
theorem C4_focus_out (s : WindowState) :
    (NativeWindowGtk.OnFocusOut s).callbacks = [AbstractionCall.NotifyWindowBlur]
    ∧ (NativeWindowGtk.OnFocusOut s).ret = FALSE
    ∧ (NativeWindowGtk.OnFocusOut s).state = s
    ∧ (NativeWindowGtk.OnFocusOut s).toolkit = [] :=
  ⟨rfl, rfl, rfl, rfl⟩

/-- C5: `SetFullscreen(b)` calls `gtk_window_fullscreen` when `b` is true
and `gtk_window_unfullscreen` when `b` is false and records `b`, so
`IsFullscreen()` afterwards returns `b`; `SetAlwaysOnTop(b)` calls
`gtk_window_set_keep_above` with `b` and `IsAlwaysOnTop()` afterwards
returns `b`; both getters read only the cached flags and issue no toolkit
call. -/
theorem C5_fullscreen_always_on_top (b : Bool) (s : WindowState) :
    ((NativeWindowGtk.SetFullscreen b s).toolkit
        = if b then [ToolkitCall.gtk_window_fullscreen]
          else [ToolkitCall.gtk_window_unfullscreen])
    ∧ NativeWindowGtk.IsFullscreen (NativeWindowGtk.SetFullscreen b s).state
        = (b, [])
    ∧ (NativeWindowGtk.SetAlwaysOnTop b s).toolkit
        = [ToolkitCall.gtk_window_set_keep_above b]
    ∧ NativeWindowGtk.IsAlwaysOnTop (NativeWindowGtk.SetAlwaysOnTop b s).state
        = (b, [])
    ∧ (NativeWindowGtk.IsFullscreen s).2 = []
    ∧ (NativeWindowGtk.IsAlwaysOnTop s).2 = []
    ∧ (NativeWindowGtk.IsFullscreen s).1 = s.fullscreen_
    ∧ (NativeWindowGtk.IsAlwaysOnTop s).1 = s.is_always_on_top_ :=
  ⟨rfl, rfl, rfl, rfl, rfl, rfl, rfl, rfl⟩

/-- C6: `SetMinimumSize(s)` stores `s` in the base-class field and
forwards a min-size geometry hint; `GetMinimumSize()` afterwards returns
exactly `s`; symmetrically for `SetMaximumSize`/`GetMaximumSize`; and no
other operation of the adapter changes either field. -/
theorem C6_size_bounds (s : WindowState) (z : Size) (op : Op) :
    (NativeWindowGtk.SetMinimumSize z s).state.minimum_size_ = z
    ∧ NativeWindowGtk.GetMinimumSize
        (NativeWindowGtk.SetMinimumSize z s).state = (z, [])
    ∧ (NativeWindowGtk.SetMinimumSize z s).toolkit
        = [ToolkitCall.gtk_window_set_geometry_hints
            ⟨z.width, z.height, 0, 0⟩ (GDK_HINT_POS ||| GDK_HINT_MIN_SIZE)]
    ∧ (NativeWindowGtk.SetMaximumSize z s).state.maximum_size_ = z
    ∧ NativeWindowGtk.GetMaximumSize
        (NativeWindowGtk.SetMaximumSize z s).state = (z, [])
    ∧ (NativeWindowGtk.SetMaximumSize z s).toolkit
        = [ToolkitCall.gtk_window_set_geometry_hints
            ⟨0, 0, z.width, z.height⟩ (GDK_HINT_POS ||| GDK_HINT_MAX_SIZE)]
    ∧ ((∀ y, op ≠ Op.setMinimumSize y) →
        (applyOp op s).state.minimum_size_ = s.minimum_size_)
    ∧ ((∀ y, op ≠ Op.setMaximumSize y) →
        (applyOp op s).state.maximum_size_ = s.maximum_size_) := by
  refine ⟨rfl, rfl, rfl, rfl, rfl, rfl, ?_, ?_⟩
  · intro h
    cases op <;> first
      | rfl
      | exact absurd rfl (h _)
  · intro h
    cases op <;> first
      | rfl
      | exact absurd rfl (h _)

/-- C6 witness: a `Maximize` operation leaves both size-bound fields of a
concrete state unchanged. -/
theorem C6_size_bounds_witness :
    (applyOp Op.maximize ⟨false, false, false, ⟨1, 2⟩, ⟨3, 4⟩, true, true⟩).state.minimum_size_
      = (⟨false, false, false, ⟨1, 2⟩, ⟨3, 4⟩, true, true⟩ : WindowState).minimum_size_
    ∧ (applyOp Op.maximize ⟨false, false, false, ⟨1, 2⟩, ⟨3, 4⟩, true, true⟩).state.maximum_size_
      = (⟨false, false, false, ⟨1, 2⟩, ⟨3, 4⟩, true, true⟩ : WindowState).maximum_size_ :=
  ⟨(C6_size_bounds ⟨false, false, false, ⟨1, 2⟩, ⟨3, 4⟩, true, true⟩ ⟨9, 9⟩
      Op.maximize).2.2.2.2.2.2.1 (fun _ h => nomatch h),
   (C6_size_bounds ⟨false, false, false, ⟨1, 2⟩, ⟨3, 4⟩, true, true⟩ ⟨9, 9⟩
      Op.maximize).2.2.2.2.2.2.2 (fun _ h => nomatch h)⟩

/-- C7: the constructor embeds the web view in a newly created top-level
toolkit window (creation then `gtk_container_add` are its first two
toolkit calls), disables decorations exactly when the inherited frame
flag is false, and sets the toolkit window icon exactly when the
inherited icon is non-empty. -/
theorem C7_constructor (options : Options) (hf ie : Bool) (m0 M0 : Size) :
    (NativeWindowGtk.construct options hf ie m0 M0).toolkit.take 2
        = [ToolkitCall.gtk_window_new_toplevel, ToolkitCall.gtk_container_add]
    ∧ (ToolkitCall.gtk_window_set_decorated false
          ∈ (NativeWindowGtk.construct options hf ie m0 M0).toolkit
        ↔ hf = false)
    ∧ (ToolkitCall.gtk_window_set_icon
          ∈ (NativeWindowGtk.construct options hf ie m0 M0).toolkit
        ↔ ie = false) := by
  cases hf <;> cases ie <;> simp [NativeWindowGtk.construct]

/-- C8: kiosk mode is an exact alias of fullscreen mode: `SetKiosk(b)`
performs the same state change and toolkit calls as `SetFullscreen(b)`,
and `IsKiosk()` returns the same value (and issues the same toolkit
calls) as `IsFullscreen()`. -/
theorem C8_kiosk_alias (b : Bool) (s : WindowState) :
    NativeWindowGtk.SetKiosk b s = NativeWindowGtk.SetFullscreen b s
    ∧ NativeWindowGtk.IsKiosk s = NativeWindowGtk.IsFullscreen s :=
  ⟨rfl, rfl⟩

/-- C9: the constructor's default-size toolkit call takes each dimension
from the options when present and otherwise defaults it to 800 (width) or
600 (height). -/
theorem C9_default_size (options : Options) (hf ie : Bool) (m0 M0 : Size)
    (w h : Int) :
    (options.width = some w → options.height = some h →
      (NativeWindowGtk.construct options hf ie m0 M0).toolkit.get? 2
        = some (ToolkitCall.gtk_window_set_default_size w h))
    ∧ (options.width = some w → options.height = none →
      (NativeWindowGtk.construct options hf ie m0 M0).toolkit.get? 2
        = some (ToolkitCall.gtk_window_set_default_size w 600))
    ∧ (options.width = none → options.height = some h →
      (NativeWindowGtk.construct options hf ie m0 M0).toolkit.get? 2
        = some (ToolkitCall.gtk_window_set_default_size 800 h))
    ∧ (options.width = none → options.height = none →
      (NativeWindowGtk.construct options hf ie m0 M0).toolkit.get? 2
        = some (ToolkitCall.gtk_window_set_default_size 800 600)) := by
  refine ⟨?_, ?_, ?_, ?_⟩ <;>
    · intro hw hh
      simp [NativeWindowGtk.construct, hw, hh]

/-- C9 witness: constructing with width 320 given and height absent
issues a default-size call of 320 by 600. -/
theorem C9_default_size_witness :
    (NativeWindowGtk.construct ⟨some 320, none⟩ true true ⟨0, 0⟩ ⟨0, 0⟩).toolkit.get? 2
      = some (ToolkitCall.gtk_window_set_default_size 320 600) :=
  (C9_default_size ⟨some 320, none⟩ true true ⟨0, 0⟩ ⟨0, 0⟩ 320 0).2.1 rfl rfl

/-- C10: `HasModalDialog()` returns `false` (and issues no toolkit call)
in every state, regardless of any preceding sequence of operations. -/
theorem C10_has_modal_dialog (ops : List Op) (s : WindowState) :
    NativeWindowGtk.HasModalDialog (runOps ops s) = (false, []) :=
  rfl

end AtomGtk
